import Mathlib

set_option autoImplicit false

/-!
Verification development for the fluxer.py client library.

This file gives a shallow embedding of the library's core protocol logic:
the gateway payload wire format and payload handling (src/fluxer/gateway.py),
the close-code classification (src/fluxer/enums.py), the REST request retry
loop and rate limiter (src/fluxer/http.py), and the event router
(src/fluxer/client.py).  Python values crossing the JSON boundary are
modelled by an inductive JSON value type; machine-level concerns (actual
socket I/O, real time) are modelled as explicit effect traces.
-/

/-- JSON values as produced by json.loads / consumed by json.dumps.
Numbers are rationals, covering both Python ints and the decimal floats
appearing in this protocol (e.g. retry_after 0.5). Serialization to the
wire string is modelled at the JSON-value level: json.dumps followed by
json.loads is the identity on this fragment. -/
inductive Json where
  | null
  | bool (b : Bool)
  | num (q : ℚ)
  | str (s : String)
  | arr (elems : List Json)
  | obj (fields : List (String × Json))

/-- Dictionary lookup data[k] / data.get(k) on a JSON object: none when the
value is not an object or the key is absent. -/
def Json.getKey : Json → String → Option Json
  | .obj fields, k => fields.lookup k
  | _, _ => none

/-- Python truthiness of a JSON value, as used by "if is_global:". -/
def Json.truthy : Json → Bool
  | .null => false
  | .bool b => b
  | .num q => q != 0
  | .str s => s != ""
  | .arr elems => !elems.isEmpty
  | .obj fields => !fields.isEmpty

/-- View of a JSON value as a Python int (the declared type of op and s). -/
def Json.asInt : Json → Option ℤ
  | .num q => if q.den = 1 then some q.num else none
  | _ => none

/-- View of a JSON value as a Python str. -/
def Json.asStr : Json → Option String
  | .str s => some s
  | _ => none

/-- GatewayPayload from src/fluxer/gateway.py: op (opcode), d (event data,
with Python None as Json.null), s (sequence number, DISPATCH only),
t (event name, DISPATCH only). Field types follow the class annotations. -/
structure GatewayPayload where
  op : ℤ
  d : Json := .null
  s : Option ℤ := none
  t : Option String := none

/-- GatewayPayload.to_json: always emits op and d, emits s and t only when
they are not None. -/
def GatewayPayload.to_json (p : GatewayPayload) : Json :=
  .obj ([("op", Json.num (p.op : ℚ)), ("d", p.d)]
    ++ (match p.s with
        | some n => [("s", Json.num (n : ℚ))]
        | none => [])
    ++ (match p.t with
        | some v => [("t", Json.str v)]
        | none => []))

/-- Reads an optional int field via data.get(k): an absent key or a JSON
null yields None; a value outside the declared field type int | None makes
the whole parse fail (the source would build an ill-typed object there,
which this ℤ-valued model cannot represent). -/
def Json.fieldOptInt (data : Json) (k : String) : Option (Option ℤ) :=
  match data.getKey k with
  | none => some none
  | some .null => some none
  | some v =>
    match v.asInt with
    | some n => some (some n)
    | none => none

/-- Reads an optional str field via data.get(k), as Json.fieldOptInt. -/
def Json.fieldOptStr (data : Json) (k : String) : Option (Option String) :=
  match data.getKey k with
  | none => some none
  | some .null => some none
  | some v =>
    match v.asStr with
    | some s => some (some s)
    | none => none

/-- GatewayPayload.from_json: op is read with data["op"] (a missing key is
a KeyError, modelled as none), d with data.get("d") defaulting to None,
s and t with data.get restoring absence as None. -/
def GatewayPayload.from_json (data : Json) : Option GatewayPayload := do
  let opv ← data.getKey "op"
  let op ← opv.asInt
  let s ← data.fieldOptInt "s"
  let t ← data.fieldOptStr "t"
  some { op := op, d := (data.getKey "d").getD .null, s := s, t := t }

/-- Rate-limit response headers, modelled by their two parsed fields:
X-RateLimit-Remaining (read with int(...)) and X-RateLimit-Reset-After
(read with float(...)); none stands for an absent header. -/
structure Headers where
  xRateLimitRemaining : Option ℤ
  xRateLimitResetAfter : Option ℚ
deriving DecidableEq

/-- Empty header dict, as passed to release on transport failure. -/
def Headers.empty : Headers := ⟨none, none⟩

/-- RateLimiter bucket state from src/fluxer/http.py: the _reset_times dict
and, for each bucket, whether its asyncio.Lock is currently held. -/
structure RateLimiterState where
  resetTimes : List (String × ℚ)
  lockedBuckets : List String
deriving DecidableEq

/-- Stored reset time for a bucket (self._reset_times.get(bucket)). -/
def RateLimiterState.resetTimeOf (st : RateLimiterState) (bucket : String) : Option ℚ :=
  st.resetTimes.lookup bucket

/-- RateLimiter.release: if remaining is present and 0 and reset-after is
present, record now + reset_after for the bucket; otherwise pop any stored
reset time; then free the bucket lock unconditionally (the source guards
with lock.locked(), so the bucket is never left held). The current event
loop time is passed as now. -/
def RateLimiter.release (st : RateLimiterState) (bucket : String) (headers : Headers)
    (now : ℚ) : RateLimiterState :=
  let cleared := st.resetTimes.filter (fun kv => kv.1 != bucket)
  let resetTimes :=
    match headers.xRateLimitRemaining, headers.xRateLimitResetAfter with
    | some remaining, some resetAfter =>
        if remaining = 0 then (bucket, now + resetAfter) :: cleared else cleared
    | _, _ => cleared
  { resetTimes := resetTimes,
    lockedBuckets := st.lockedBuckets.filter (fun b => b != bucket) }

/-- Outcome of one network attempt inside HTTPClient.request, as supplied
by the environment: either a transport-level failure (aiohttp.ClientError
or asyncio.TimeoutError) or a response with status, rate-limit headers and
parsed JSON body. -/
inductive AttemptOutcome where
  | transportError
  | response (status : ℕ) (headers : Headers) (body : Json)

/-- Result of HTTPClient.request: a parsed JSON body (none for 204 No
Content), a typed HTTPException carrying status and the body's code,
message and errors fields, the re-raised transport error after the final
attempt, or the RuntimeError raised after exhausting all attempts. -/
inductive RequestResult where
  | success (body : Option Json)
  | httpError (status : ℕ) (code : Json) (message : Json) (errors : Json)
  | transportError
  | exhausted

/-- Observable side effects of HTTPClient.request, in program order. -/
inductive HttpEffect where
  | acquire (bucket : String)
  | release (bucket : String) (headers : Headers)
  | sleep (seconds : ℚ)
  | setGlobal (retryAfter : ℚ)

/-- The 429 body's retry_after via body.get("retry_after", 1.0). A
non-numeric value, which would raise TypeError at the subsequent
asyncio.sleep call in the source, is mapped to the default. -/
def json429RetryAfter (body : Json) : ℚ :=
  match body.getKey "retry_after" with
  | some (Json.num q) => q
  | _ => 1

/-- The 429 body's global flag via body.get("global", False), tested for
truthiness by "if is_global:". -/
def json429Global (body : Json) : Bool :=
  match body.getKey "global" with
  | some v => v.truthy
  | none => false

/-- One pass of the for-attempt-in-range(5) loop body of
HTTPClient.request, driven by env (the outcome of each numbered attempt).
fuel is the number of loop iterations left (5 - attempt); running out of
fuel is falling off the loop into the RuntimeError. Per attempt: acquire
the bucket, then classify: 2xx returns the body (204 returns None); 429
trips the global throttle or sleeps retry_after and retries; >= 500 sleeps
1 + attempt and retries; any other status raises the typed error built
from the body; a transport error releases the bucket with empty headers,
then retries with the same 1 + attempt backoff, or re-raises on the last
attempt. -/
def HTTPClient.requestAux (bucket : String) (env : ℕ → AttemptOutcome) :
    ℕ → ℕ → RequestResult × List HttpEffect
  | 0, _ => (.exhausted, [])
  | fuel + 1, attempt =>
    match env attempt with
    | .transportError =>
      if attempt < 4 then
        let rest := HTTPClient.requestAux bucket env fuel (attempt + 1)
        (rest.1, .acquire bucket :: .release bucket Headers.empty ::
          .sleep (1 + (attempt : ℚ)) :: rest.2)
      else
        (.transportError, [.acquire bucket, .release bucket Headers.empty])
    | .response status headers body =>
      if 200 ≤ status ∧ status < 300 then
        ((if status = 204 then .success none else .success (some body)),
         [.acquire bucket, .release bucket headers])
      else if status = 429 then
        let rest := HTTPClient.requestAux bucket env fuel (attempt + 1)
        (rest.1, .acquire bucket :: .release bucket headers ::
          (if json429Global body then HttpEffect.setGlobal (json429RetryAfter body)
           else HttpEffect.sleep (json429RetryAfter body)) :: rest.2)
      else if 500 ≤ status then
        let rest := HTTPClient.requestAux bucket env fuel (attempt + 1)
        (rest.1, .acquire bucket :: .release bucket headers ::
          .sleep (1 + (attempt : ℚ)) :: rest.2)
      else
        (.httpError status ((body.getKey "code").getD (.str "UNKNOWN"))
          ((body.getKey "message").getD (.str "Unknown error"))
          ((body.getKey "errors").getD .null),
         [.acquire bucket, .release bucket headers])

/-- HTTPClient.request: the retry loop starting at attempt 0 with all 5
attempts available. -/
def HTTPClient.request (bucket : String) (env : ℕ → AttemptOutcome) :
    RequestResult × List HttpEffect :=
  HTTPClient.requestAux bucket env 5 0

/-- Number of rate-limiter acquisitions (network attempts) in a trace. -/
def countAcquires (effects : List HttpEffect) : ℕ :=
  effects.countP (fun e => match e with | .acquire _ => true | _ => false)

/-- Responses that the retry loop treats as retryable: 429 or 5xx. -/
def AttemptOutcome.retryableResponse : AttemptOutcome → Bool
  | .transportError => false
  | .response status _ _ => status == 429 || decide (500 ≤ status)

/-- Gateway opcodes from src/fluxer/enums.py. -/
def GatewayOpcode.DISPATCH : ℤ := 0

/-- HEARTBEAT opcode (bidirectional). -/
def GatewayOpcode.HEARTBEAT : ℤ := 1

/-- IDENTIFY opcode. -/
def GatewayOpcode.IDENTIFY : ℤ := 2

/-- RESUME opcode. -/
def GatewayOpcode.RESUME : ℤ := 6

/-- RECONNECT opcode. -/
def GatewayOpcode.RECONNECT : ℤ := 7

/-- INVALID_SESSION opcode. -/
def GatewayOpcode.INVALID_SESSION : ℤ := 9

/-- HELLO opcode. -/
def GatewayOpcode.HELLO : ℤ := 10

/-- HEARTBEAT_ACK opcode. -/
def GatewayOpcode.HEARTBEAT_ACK : ℤ := 11

/-- Gateway close codes from src/fluxer/enums.py (note 4006 is absent). -/
inductive GatewayCloseCode where
  | UNKNOWN_ERROR
  | UNKNOWN_OPCODE
  | DECODE_ERROR
  | NOT_AUTHENTICATED
  | AUTHENTICATION_FAILED
  | ALREADY_AUTHENTICATED
  | INVALID_SEQ
  | RATE_LIMITED
  | SESSION_TIMED_OUT
  | INVALID_SHARD
  | SHARDING_REQUIRED
  | INVALID_API_VERSION
  | INVALID_INTENTS
  | DISALLOWED_INTENTS
deriving DecidableEq

/-- GatewayCloseCode(code): the IntEnum constructor, raising ValueError
(modelled as none) on a code outside the enumeration. (Named fromCode
because Lean reserves GatewayCloseCode.ofNat for the enum itself.) -/
def GatewayCloseCode.fromCode (code : ℕ) : Option GatewayCloseCode :=
  if code = 4000 then some .UNKNOWN_ERROR
  else if code = 4001 then some .UNKNOWN_OPCODE
  else if code = 4002 then some .DECODE_ERROR
  else if code = 4003 then some .NOT_AUTHENTICATED
  else if code = 4004 then some .AUTHENTICATION_FAILED
  else if code = 4005 then some .ALREADY_AUTHENTICATED
  else if code = 4007 then some .INVALID_SEQ
  else if code = 4008 then some .RATE_LIMITED
  else if code = 4009 then some .SESSION_TIMED_OUT
  else if code = 4010 then some .INVALID_SHARD
  else if code = 4011 then some .SHARDING_REQUIRED
  else if code = 4012 then some .INVALID_API_VERSION
  else if code = 4013 then some .INVALID_INTENTS
  else if code = 4014 then some .DISALLOWED_INTENTS
  else none

/-- GatewayCloseCode.is_reconnectable: false exactly on the
non_reconnectable set of the source. -/
def GatewayCloseCode.is_reconnectable : GatewayCloseCode → Bool
  | .AUTHENTICATION_FAILED => false
  | .INVALID_SHARD => false
  | .SHARDING_REQUIRED => false
  | .INVALID_API_VERSION => false
  | .INVALID_INTENTS => false
  | .DISALLOWED_INTENTS => false
  | _ => true

/-- State of the underlying WebSocket object self._ws: absent (None),
connected (open), or closedConn (a ws object whose closed flag is set). -/
inductive WsConn where
  | absent
  | connected
  | closedConn
deriving DecidableEq

/-- Connection state of a Gateway instance (src/fluxer/gateway.py
__init__): heartbeat interval in seconds, stored sequence, session id,
resume URL, the last-heartbeat-ack flag, the is-closed flag that stops the
outer reconnect loop, and the WebSocket handle. -/
structure GatewayState where
  heartbeatInterval : ℚ
  sequence : Option ℤ
  sessionId : Option String
  resumeGatewayUrl : Option String
  lastHeartbeatAck : Bool
  isClosed : Bool
  ws : WsConn

/-- Immutable Gateway construction parameters used by outbound frames. The
platform field models sys.platform. -/
structure GatewayConfig where
  token : String
  intents : ℤ
  platform : String

/-- Observable side effects of payload handling and the heartbeat loop. -/
inductive GatewayEffect where
  | send (p : GatewayPayload)
  | startHeartbeat
  | sleep (seconds : ℚ)
  | closeWs
  | closeWsWithCode (code : ℕ)
  | dispatchEvent (name : String) (d : Json)

/-- Gateway._send: sends the payload only when the WebSocket exists and is
not closed; otherwise it logs and drops the frame. -/
def Gateway.sendEffects (st : GatewayState) (p : GatewayPayload) : List GatewayEffect :=
  if st.ws = .connected then [.send p] else []

/-- The IDENTIFY payload built by Gateway._send_identify. -/
def Gateway.identifyPayload (cfg : GatewayConfig) : GatewayPayload :=
  { op := GatewayOpcode.IDENTIFY,
    d := .obj [("token", .str cfg.token), ("intents", .num (cfg.intents : ℚ)),
      ("properties", .obj [("os", .str cfg.platform), ("browser", .str "fluxer.py"),
        ("device", .str "fluxer.py")])] }

/-- The RESUME payload built by Gateway._send_resume, carrying the token,
the stored session id and the current sequence. -/
def Gateway.resumePayload (cfg : GatewayConfig) (st : GatewayState) : GatewayPayload :=
  { op := GatewayOpcode.RESUME,
    d := .obj [("token", .str cfg.token),
      ("session_id", match st.sessionId with | some sid => Json.str sid | none => Json.null),
      ("seq", match st.sequence with | some n => Json.num (n : ℚ) | none => Json.null)] }

/-- The HEARTBEAT payload built by Gateway._send_heartbeat, carrying the
current sequence as d. -/
def Gateway.heartbeatPayload (st : GatewayState) : GatewayPayload :=
  { op := GatewayOpcode.HEARTBEAT,
    d := match st.sequence with | some n => Json.num (n : ℚ) | none => Json.null }

/-- Truthiness of "if self._session_id:": a stored empty string counts as
no session. -/
def optStrTruthy : Option String → Bool
  | some s => s != ""
  | none => false

/-- Reads data.get("resume_gateway_url") as the str | None annotation of
the target field; non-string values collapse to none. -/
def jsonOptStr : Option Json → Option String
  | some (Json.str s) => some s
  | _ => none

/-- Gateway._handle_dispatch: on READY stores the session id and resume
URL from the event data (data["session_id"] raising KeyError when absent
and log.info reading data["user"].get(...) are modelled as none when the
fields are missing or ill-typed), then forwards every event to the
client's dispatch. -/
def Gateway.handleDispatch (st : GatewayState) (eventName : String) (data : Json) :
    Option (GatewayState × List GatewayEffect) :=
  if eventName = "READY" then
    match data.getKey "session_id", data.getKey "user" with
    | some (Json.str sid), some (Json.obj _) =>
        some ({ st with sessionId := some sid,
                        resumeGatewayUrl := jsonOptStr (data.getKey "resume_gateway_url") },
          [.dispatchEvent eventName data])
    | _, _ => none
  else
    some (st, [.dispatchEvent eventName data])

/-- The INVALID_SESSION resumable flag: payload.d if isinstance(payload.d,
bool) else False. -/
def Gateway.invalidSessionResumable : Json → Bool
  | Json.bool b => b
  | _ => false

/-- Gateway._handle_payload: routes an incoming payload by opcode. HELLO
records d["heartbeat_interval"] / 1000 and starts the heartbeat loop
(which resets the ack flag to True), then sends RESUME when a session id
is stored (truthily) and IDENTIFY otherwise; HEARTBEAT_ACK marks the ack;
HEARTBEAT replies immediately with a heartbeat; DISPATCH overwrites the
stored sequence with payload.s when present and hands the event to
_handle_dispatch; RECONNECT closes the transport; INVALID_SESSION clears
the session identifiers when not resumable, sleeps 1 + 5 * (not
resumable) seconds and closes the transport; any other opcode does
nothing. A none result is an uncaught exception inside handling. -/
def Gateway.handlePayload (cfg : GatewayConfig) (st : GatewayState) (p : GatewayPayload) :
    Option (GatewayState × List GatewayEffect) :=
  if p.op = GatewayOpcode.HELLO then
    match p.d.getKey "heartbeat_interval" with
    | some (Json.num q) =>
      let st1 := { st with heartbeatInterval := q / 1000, lastHeartbeatAck := true }
      if optStrTruthy st1.sessionId then
        some (st1, .startHeartbeat :: Gateway.sendEffects st1 (Gateway.resumePayload cfg st1))
      else
        some (st1, .startHeartbeat :: Gateway.sendEffects st1 (Gateway.identifyPayload cfg))
    | _ => none
  else if p.op = GatewayOpcode.HEARTBEAT_ACK then
    some ({ st with lastHeartbeatAck := true }, [])
  else if p.op = GatewayOpcode.HEARTBEAT then
    some (st, Gateway.sendEffects st (Gateway.heartbeatPayload st))
  else if p.op = GatewayOpcode.DISPATCH then
    let st1 := match p.s with
      | some n => { st with sequence := some n }
      | none => st
    Gateway.handleDispatch st1 (p.t.getD "") p.d
  else if p.op = GatewayOpcode.RECONNECT then
    some (st, if st.ws ≠ .absent then [.closeWs] else [])
  else if p.op = GatewayOpcode.INVALID_SESSION then
    let resumable := Gateway.invalidSessionResumable p.d
    let st1 := if resumable then st
      else { st with sessionId := none, sequence := none, resumeGatewayUrl := none }
    some (st1, .sleep (1 + 5 * (if resumable then 0 else 1)) ::
      (if st.ws ≠ .absent then [.closeWs] else []))
  else
    some (st, [])

/-- One iteration of the while-loop body of Gateway._heartbeat_loop: stop
when the connection is gone; if the previous heartbeat was never
acknowledged, force-close the transport with code 4000 and stop;
otherwise mark the ack as pending, send a heartbeat, and sleep a full
interval before the next iteration. A none first component means the loop
returns. -/
def Gateway.heartbeatIter (st : GatewayState) : Option GatewayState × List GatewayEffect :=
  if st.ws ≠ .connected then (none, [])
  else if st.lastHeartbeatAck = false then (none, [.closeWsWithCode 4000])
  else
    let st1 := { st with lastHeartbeatAck := false }
    (some st1, Gateway.sendEffects st1 (Gateway.heartbeatPayload st1) ++ [.sleep st.heartbeatInterval])

/-- Gateway._handle_close_code: look the code up in the enumeration; a
fatal (non-reconnectable) code sets _is_closed, stopping the outer
reconnect loop; an unknown code (ValueError) and every reconnectable code
leave the state unchanged so the outer loop reconnects. -/
def Gateway.handleCloseCode (st : GatewayState) (code : ℕ) : GatewayState :=
  match GatewayCloseCode.fromCode code with
  | some closeCode =>
      if closeCode.is_reconnectable then st else { st with isClosed := true }
  | none => st

/-- Condition of the outer reconnect loop in Gateway.connect:
while not self._is_closed. -/
def Gateway.reconnectLoopContinues (st : GatewayState) : Bool :=
  !st.isClosed

/-- Gateway state right after __init__ (ws not yet established). -/
def Gateway.initState : GatewayState :=
  { heartbeatInterval := 41.25, sequence := none, sessionId := none,
    resumeGatewayUrl := none, lastHeartbeatAck := true, isClosed := false,
    ws := .absent }

/-- A registered event handler for Client._fire: its registration
identity and whether awaiting it raises an exception. -/
structure EventHandler where
  hid : ℕ
  raisesError : Bool
deriving DecidableEq

/-- Observable actions of Client._fire: awaiting a handler, and logging
the exception a handler raised (log.exception in the except block). -/
inductive FireAction where
  | invoke (hid : ℕ)
  | logError (hid : ℕ)
deriving DecidableEq

/-- Client._fire: iterate the registered handlers in list order, awaiting
each inside try/except Exception; a raising handler is logged and the
loop continues; the function itself always returns normally. -/
def Client.fire (handlers : List EventHandler) : List FireAction :=
  handlers.flatMap (fun h =>
    .invoke h.hid :: (if h.raisesError then [.logError h.hid] else []))

/-- Client.event / Client.on: registration appends the new handler to the
event's handler list. -/
def Client.registerHandler (handlers : List EventHandler) (h : EventHandler) :
    List EventHandler :=
  handlers ++ [h]

/-- Projection selecting handler invocations from a fire trace. -/
def FireAction.invokedId : FireAction → Option ℕ
  | .invoke hid => some hid
  | .logError _ => none

/-- Progress of one HTTPClient.request call with respect to a fixed
bucket's lock: before acquire is called, suspended inside lock.acquire(),
holding the bucket (acquire returned, release not yet run), and after
release. -/
inductive ReqPhase where
  | idle
  | waitingAcquire
  | inFlight
  | finished
deriving DecidableEq

/-- System state for requests contending on one bucket key: the bucket's
asyncio.Lock (owned by at most one task, none when free) and each task's
phase. -/
structure BucketSys where
  lockOwner : Option ℕ
  phase : ℕ → ReqPhase

/-- Initial state: a fresh lock and no request started. -/
def BucketSys.init : BucketSys :=
  { lockOwner := none, phase := fun _ => .idle }

/-- Pointwise update of the phase map. -/
def BucketSys.updPhase (f : ℕ → ReqPhase) (t : ℕ) (p : ReqPhase) : ℕ → ReqPhase :=
  fun u => if u = t then p else f u

/-- Interleaving steps of concurrent HTTPClient.request calls sharing one
bucket: a task enters RateLimiter.acquire and blocks on the bucket lock;
lock.acquire() returns only when the lock is free, making the task its
owner (asyncio.Lock exclusivity); RateLimiter.release frees the lock at
the end of the task's attempt. -/
inductive BucketStep : BucketSys → BucketSys → Prop where
  | callAcquire (s : BucketSys) (t : ℕ) :
      s.phase t = .idle →
      BucketStep s { lockOwner := s.lockOwner,
                     phase := BucketSys.updPhase s.phase t .waitingAcquire }
  | lockAcquired (s : BucketSys) (t : ℕ) :
      s.phase t = .waitingAcquire →
      s.lockOwner = none →
      BucketStep s { lockOwner := some t,
                     phase := BucketSys.updPhase s.phase t .inFlight }
  | release (s : BucketSys) (t : ℕ) :
      s.phase t = .inFlight →
      BucketStep s { lockOwner := none,
                     phase := BucketSys.updPhase s.phase t .finished }

/-- States reachable from the initial state by interleaved acquire and
release steps. -/
inductive BucketReachable : BucketSys → Prop where
  | init : BucketReachable BucketSys.init
  | step {s s' : BucketSys} :
      BucketReachable s → BucketStep s s' → BucketReachable s'

/-- Concrete gateway configuration used to exercise the theorems. -/
def cfg0 : GatewayConfig := { token := "tok", intents := 515, platform := "linux" }

/-- Connected gateway state holding a live session, as after READY. -/
def gwStSession : GatewayState :=
  { Gateway.initState with
      ws := .connected
      sessionId := some "abc"
      resumeGatewayUrl := some "wss"
      sequence := some 42 }

/-- Connected gateway state with sequence 5 and no session id. -/
def gwSt5 : GatewayState :=
  { Gateway.initState with ws := .connected, sequence := some 5 }

/-- Connected gateway state with an unacknowledged heartbeat outstanding. -/
def gwStNoAck : GatewayState :=
  { Gateway.initState with
      ws := .connected
      lastHeartbeatAck := false
      sequence := some 3 }

/-- An INVALID_SESSION frame with resumable false. -/
def invalidSessionFresh : GatewayPayload :=
  { op := GatewayOpcode.INVALID_SESSION, d := Json.bool false }

/-- An INVALID_SESSION frame with resumable true. -/
def invalidSessionResume : GatewayPayload :=
  { op := GatewayOpcode.INVALID_SESSION, d := Json.bool true }

/-- A DISPATCH frame whose sequence 0 undercuts a stored sequence. -/
def dispatchLow : GatewayPayload :=
  { op := GatewayOpcode.DISPATCH, d := Json.null, s := some 0, t := some "X" }

/-- A DISPATCH frame with sequence 7, above the stored 5. -/
def dispatchHigh : GatewayPayload :=
  { op := GatewayOpcode.DISPATCH, d := Json.null, s := some 7, t := some "X" }

/-- A HELLO frame carrying heartbeat_interval 41250 ms. -/
def helloPayload : GatewayPayload :=
  { op := GatewayOpcode.HELLO,
    d := Json.obj [("heartbeat_interval", Json.num 41250)] }

/-- A server-requested heartbeat frame (op 1). -/
def heartbeatRequestPayload : GatewayPayload :=
  { op := GatewayOpcode.HEARTBEAT, d := Json.null }

/-- Environment whose every attempt yields 200 with body "ok". -/
def envOk : ℕ → AttemptOutcome :=
  fun _ => .response 200 Headers.empty (Json.str "ok")

/-- Environment whose every attempt yields a non-global 429. -/
def envAll429 : ℕ → AttemptOutcome :=
  fun _ => .response 429 Headers.empty (Json.obj [("retry_after", Json.num (1/2))])

/-- Environment whose every attempt fails at the transport level. -/
def envDown : ℕ → AttemptOutcome :=
  fun _ => .transportError

/-- Bucket system after task 0 called acquire and obtained the lock. -/
def bucketSys1 : BucketSys :=
  { lockOwner := some 0,
    phase := BucketSys.updPhase
      (BucketSys.updPhase BucketSys.init.phase 0 .waitingAcquire) 0 .inFlight }

/-- Two registered handlers: the first raises, the second succeeds. -/
def handlers0 : List EventHandler := [⟨0, true⟩, ⟨1, false⟩]

/-- A rate limiter state in which bucket "b" is locked and has a stored
reset time. -/
def rlSt0 : RateLimiterState := { resetTimes := [("b", 10)], lockedBuckets := ["b"] }

/-- C10: for every GatewayPayload p, from_json (to_json p) restores op, d,
s and t exactly; s and t are omitted by to_json when None and restored as
None by from_json. -/
theorem C10_payload_round_trip (p : GatewayPayload) :
    GatewayPayload.from_json (GatewayPayload.to_json p) = some p := by
  obtain ⟨op, d, s, t⟩ := p
  cases s <;> cases t <;>
    simp [GatewayPayload.from_json, GatewayPayload.to_json, Json.getKey,
      Json.asInt, Json.asStr, Json.fieldOptInt, Json.fieldOptStr,
      List.lookup, Rat.den_intCast, Rat.num_intCast]

/-- Characterization of Gateway._handle_close_code on a not-yet-closed
state: the closed flag comes out set exactly on the fatal codes. -/
lemma handleCloseCode_isClosed_iff (st : GatewayState) (hopen : st.isClosed = false)
    (code : ℕ) :
    (Gateway.handleCloseCode st code).isClosed = true ↔
      (code = 4004 ∨ code = 4010 ∨ code = 4011 ∨ code = 4012 ∨
        code = 4013 ∨ code = 4014) := by
  unfold Gateway.handleCloseCode GatewayCloseCode.fromCode
  by_cases h0 : code = 4000
  · subst h0; simp [GatewayCloseCode.is_reconnectable, hopen]
  by_cases h1 : code = 4001
  · subst h1; simp [GatewayCloseCode.is_reconnectable, hopen]
  by_cases h2 : code = 4002
  · subst h2; simp [GatewayCloseCode.is_reconnectable, hopen]
  by_cases h3 : code = 4003
  · subst h3; simp [GatewayCloseCode.is_reconnectable, hopen]
  by_cases h4 : code = 4004
  · subst h4; simp [GatewayCloseCode.is_reconnectable]
  by_cases h5 : code = 4005
  · subst h5; simp [GatewayCloseCode.is_reconnectable, hopen]
  by_cases h7 : code = 4007
  · subst h7; simp [GatewayCloseCode.is_reconnectable, hopen]
  by_cases h8 : code = 4008
  · subst h8; simp [GatewayCloseCode.is_reconnectable, hopen]
  by_cases h9 : code = 4009
  · subst h9; simp [GatewayCloseCode.is_reconnectable, hopen]
  by_cases h10 : code = 4010
  · subst h10; simp [GatewayCloseCode.is_reconnectable]
  by_cases h11 : code = 4011
  · subst h11; simp [GatewayCloseCode.is_reconnectable]
  by_cases h12 : code = 4012
  · subst h12; simp [GatewayCloseCode.is_reconnectable]
  by_cases h13 : code = 4013
  · subst h13; simp [GatewayCloseCode.is_reconnectable]
  by_cases h14 : code = 4014
  · subst h14; simp [GatewayCloseCode.is_reconnectable]
  simp [h0, h1, h2, h3, h4, h5, h7, h8, h9, h10, h11, h12, h13, h14, hopen]

/-- C6: handling a WebSocket close code marks the connection permanently
closed (stopping the outer reconnect loop) exactly for the fatal codes
4004, 4010, 4011, 4012, 4013 and 4014; every other code, including codes
outside the 4000 to 4014 enumeration, leaves the connection open so the
outer loop reconnects; in particular 4004 stops reconnection and 4000
triggers a reconnect. -/
theorem C6_close_code_classification (st : GatewayState) (hopen : st.isClosed = false) :
    (∀ code : ℕ, ((Gateway.handleCloseCode st code).isClosed = true ↔
      (code = 4004 ∨ code = 4010 ∨ code = 4011 ∨ code = 4012 ∨
        code = 4013 ∨ code = 4014))) ∧
    Gateway.reconnectLoopContinues (Gateway.handleCloseCode st 4004) = false ∧
    Gateway.reconnectLoopContinues (Gateway.handleCloseCode st 4000) = true := by
  refine ⟨handleCloseCode_isClosed_iff st hopen, ?_, ?_⟩
  · have h := (handleCloseCode_isClosed_iff st hopen 4004).mpr (by norm_num)
    simp [Gateway.reconnectLoopContinues, h]
  · have h := handleCloseCode_isClosed_iff st hopen 4000
    simp only [Gateway.reconnectLoopContinues]
    cases hc : (Gateway.handleCloseCode st 4000).isClosed
    · rfl
    · exact absurd (h.mp hc) (by norm_num)

/-- C6 witness: with a freshly initialized gateway, close code 4004 stops
the reconnect loop and close code 4000 lets it reconnect. -/
theorem C6_close_code_witness :
    Gateway.reconnectLoopContinues (Gateway.handleCloseCode Gateway.initState 4004) = false ∧
    Gateway.reconnectLoopContinues (Gateway.handleCloseCode Gateway.initState 4000) = true :=
  ⟨(C6_close_code_classification Gateway.initState rfl).2.1,
   (C6_close_code_classification Gateway.initState rfl).2.2⟩

/-- C7: handling INVALID_SESSION with resumable false clears the stored
session id, sequence and resume URL, sleeps 6 seconds and closes the
transport; with resumable true it sleeps 1 second and closes the
transport leaving the whole state unchanged. -/
theorem C7_invalid_session (cfg : GatewayConfig) (st : GatewayState) (p : GatewayPayload)
    (hop : p.op = GatewayOpcode.INVALID_SESSION) :
    (Gateway.invalidSessionResumable p.d = false →
      Gateway.handlePayload cfg st p =
        some ({ st with sessionId := none, sequence := none, resumeGatewayUrl := none },
          .sleep 6 :: (if st.ws ≠ .absent then [GatewayEffect.closeWs] else []))) ∧
    (Gateway.invalidSessionResumable p.d = true →
      Gateway.handlePayload cfg st p =
        some (st, .sleep 1 :: (if st.ws ≠ .absent then [GatewayEffect.closeWs] else []))) := by
  constructor <;> intro hres <;>
    (unfold Gateway.handlePayload
     rw [hop]
     norm_num [GatewayOpcode.INVALID_SESSION, GatewayOpcode.HELLO,
       GatewayOpcode.HEARTBEAT_ACK, GatewayOpcode.HEARTBEAT,
       GatewayOpcode.DISPATCH, GatewayOpcode.RECONNECT, hres])

/-- C7 witness: a non-resumable INVALID_SESSION on a connected session
clears the identifiers, sleeps 6 seconds and closes; a resumable one
sleeps 1 second and closes with the state intact. -/
theorem C7_invalid_session_witness :
    Gateway.handlePayload cfg0 gwStSession invalidSessionFresh =
      some ({ gwStSession with sessionId := none, sequence := none, resumeGatewayUrl := none },
        .sleep 6 :: (if gwStSession.ws ≠ .absent then [GatewayEffect.closeWs] else [])) ∧
    Gateway.handlePayload cfg0 gwStSession invalidSessionResume =
      some (gwStSession, .sleep 1 :: (if gwStSession.ws ≠ .absent then [GatewayEffect.closeWs] else [])) :=
  ⟨(C7_invalid_session cfg0 gwStSession invalidSessionFresh rfl).1 rfl,
   (C7_invalid_session cfg0 gwStSession invalidSessionResume rfl).2 rfl⟩

/-- Routing lemma: a HELLO payload with a numeric heartbeat_interval field
records the interval divided by 1000, restarts the heartbeat loop, and
sends RESUME or IDENTIFY according to the truthiness of the stored
session id. -/
lemma handlePayload_hello (cfg : GatewayConfig) (st : GatewayState) (p : GatewayPayload)
    (q : ℚ) (hop : p.op = GatewayOpcode.HELLO)
    (hd : p.d.getKey "heartbeat_interval" = some (Json.num q)) :
    Gateway.handlePayload cfg st p =
      (if optStrTruthy st.sessionId then
        some ({ st with heartbeatInterval := q / 1000, lastHeartbeatAck := true },
          .startHeartbeat ::
            Gateway.sendEffects { st with heartbeatInterval := q / 1000, lastHeartbeatAck := true }
              (Gateway.resumePayload cfg { st with heartbeatInterval := q / 1000, lastHeartbeatAck := true }))
      else
        some ({ st with heartbeatInterval := q / 1000, lastHeartbeatAck := true },
          .startHeartbeat ::
            Gateway.sendEffects { st with heartbeatInterval := q / 1000, lastHeartbeatAck := true }
              (Gateway.identifyPayload cfg))) := by
  unfold Gateway.handlePayload
  rw [hop, if_pos rfl, hd]

/-- C5: on HELLO the heartbeat interval is recorded (milliseconds divided
by 1000) and the heartbeat loop started; with a session id stored the
next outbound frame is RESUME carrying the token, the stored session id
and the current sequence; with no session id stored it is IDENTIFY. -/
theorem C5_hello_resume_or_identify (cfg : GatewayConfig) (st : GatewayState)
    (p : GatewayPayload) (q : ℚ) (hws : st.ws = .connected)
    (hop : p.op = GatewayOpcode.HELLO)
    (hd : p.d.getKey "heartbeat_interval" = some (Json.num q)) :
    (∀ sid, st.sessionId = some sid → sid ≠ "" →
      Gateway.handlePayload cfg st p =
        some ({ st with heartbeatInterval := q / 1000, lastHeartbeatAck := true },
          [.startHeartbeat,
           .send (Gateway.resumePayload cfg
             { st with heartbeatInterval := q / 1000, lastHeartbeatAck := true })]) ∧
      (Gateway.resumePayload cfg
          { st with heartbeatInterval := q / 1000, lastHeartbeatAck := true }).d =
        Json.obj [("token", Json.str cfg.token), ("session_id", Json.str sid),
          ("seq", match st.sequence with
                  | some n => Json.num (n : ℚ)
                  | none => Json.null)]) ∧
    (st.sessionId = none →
      Gateway.handlePayload cfg st p =
        some ({ st with heartbeatInterval := q / 1000, lastHeartbeatAck := true },
          [.startHeartbeat, .send (Gateway.identifyPayload cfg)])) := by
  constructor
  · intro sid hsid hne
    constructor
    · rw [handlePayload_hello cfg st p q hop hd]
      rw [if_pos (by simp [optStrTruthy, hsid, hne])]
      rw [show Gateway.sendEffects { st with heartbeatInterval := q / 1000, lastHeartbeatAck := true }
            (Gateway.resumePayload cfg { st with heartbeatInterval := q / 1000, lastHeartbeatAck := true }) =
          [.send (Gateway.resumePayload cfg { st with heartbeatInterval := q / 1000, lastHeartbeatAck := true })]
        from by simp [Gateway.sendEffects, hws]]
    · simp [Gateway.resumePayload, hsid]
  · intro hsid
    rw [handlePayload_hello cfg st p q hop hd]
    rw [if_neg (by simp [optStrTruthy, hsid])]
    rw [show Gateway.sendEffects { st with heartbeatInterval := q / 1000, lastHeartbeatAck := true }
          (Gateway.identifyPayload cfg) = [.send (Gateway.identifyPayload cfg)]
      from by simp [Gateway.sendEffects, hws]]

/-- C5 witness: on a connected state with session id "abc" and sequence
42, HELLO with heartbeat_interval 41250 yields a RESUME as the next
outbound frame, carrying token, session id and sequence; on a fresh
connected state with no session id it yields an IDENTIFY. -/
theorem C5_hello_witness :
    (Gateway.handlePayload cfg0 gwStSession helloPayload =
      some ({ gwStSession with heartbeatInterval := 41250 / 1000, lastHeartbeatAck := true },
        [.startHeartbeat,
         .send (Gateway.resumePayload cfg0
           { gwStSession with heartbeatInterval := 41250 / 1000, lastHeartbeatAck := true })]) ∧
      (Gateway.resumePayload cfg0
          { gwStSession with heartbeatInterval := 41250 / 1000, lastHeartbeatAck := true }).d =
        Json.obj [("token", Json.str cfg0.token), ("session_id", Json.str "abc"),
          ("seq", match gwStSession.sequence with
                  | some n => Json.num (n : ℚ)
                  | none => Json.null)]) ∧
    Gateway.handlePayload cfg0 gwSt5 helloPayload =
      some ({ gwSt5 with heartbeatInterval := 41250 / 1000, lastHeartbeatAck := true },
        [.startHeartbeat, .send (Gateway.identifyPayload cfg0)]) :=
  ⟨(C5_hello_resume_or_identify cfg0 gwStSession helloPayload 41250 rfl rfl rfl).1
      "abc" rfl (by decide),
   (C5_hello_resume_or_identify cfg0 gwSt5 helloPayload 41250 rfl rfl rfl).2 rfl⟩

/-- C8: the event router invokes the registered handlers for an event
sequentially in registration order — the invocations in the fire trace
are exactly the handler ids in list order, whatever the failure flags —
a raising handler is logged and does not stop the remaining handlers,
the dispatch itself always returns a trace rather than propagating, and
registering appends, so a newly registered handler fires last. -/
theorem C8_event_router_isolation (handlers : List EventHandler) :
    ((Client.fire handlers).filterMap FireAction.invokedId =
      handlers.map EventHandler.hid) ∧
    (∀ h : EventHandler, h ∈ handlers → h.raisesError = true →
      FireAction.logError h.hid ∈ Client.fire handlers) ∧
    (∀ h : EventHandler, Client.fire (Client.registerHandler handlers h) =
      Client.fire handlers ++ Client.fire [h]) := by
  refine ⟨?_, ?_, ?_⟩
  · induction handlers with
    | nil => rfl
    | cons h t ih =>
      by_cases hr : h.raisesError <;>
        simp [Client.fire, FireAction.invokedId, hr] at ih ⊢ <;>
        simpa [Client.fire] using ih
  · intro h hmem hr
    simp only [Client.fire, List.mem_flatMap]
    exact ⟨h, hmem, by simp [hr]⟩
  · intro h
    simp [Client.fire, Client.registerHandler]

/-- C8 witness: with a raising handler registered before a succeeding one,
both are invoked in order and the failure of the first is logged. -/
theorem C8_event_router_witness :
    (Client.fire handlers0).filterMap FireAction.invokedId =
      handlers0.map EventHandler.hid ∧
    FireAction.logError (0 : ℕ) ∈ Client.fire handlers0 :=
  ⟨(C8_event_router_isolation handlers0).1,
   (C8_event_router_isolation handlers0).2.1 ⟨0, true⟩ (by simp [handlers0]) rfl⟩

/-- C4 counterexample: with a heartbeat outstanding (ack flag false) on a
live connection, handling an inbound HEARTBEAT payload (op 1) sends a
second heartbeat immediately — so the claim that no payload-handling path
sends a heartbeat while the previous one is unacknowledged is false. -/
theorem C4_second_heartbeat_counterexample :
    gwStNoAck.lastHeartbeatAck = false ∧
    Gateway.handlePayload cfg0 gwStNoAck heartbeatRequestPayload =
      some (gwStNoAck, [GatewayEffect.send (Gateway.heartbeatPayload gwStNoAck)]) := by
  constructor
  · rfl
  · unfold Gateway.handlePayload
    norm_num [heartbeatRequestPayload, GatewayOpcode.HEARTBEAT, GatewayOpcode.HELLO,
      GatewayOpcode.HEARTBEAT_ACK]
    simp [Gateway.sendEffects, gwStNoAck, Gateway.initState]

/-- C4 amended: the heartbeat loop itself never sends while the previous
heartbeat is unacknowledged — a loop iteration with the ack missing
force-closes the transport with code 4000 and stops, and one with the ack
present sends exactly one heartbeat and marks it pending; however,
handling an inbound HEARTBEAT request payload replies with a heartbeat
immediately, regardless of the ack flag. -/
theorem C4_heartbeat_loop_discipline (cfg : GatewayConfig) (st : GatewayState) :
    (st.lastHeartbeatAck = false →
      Gateway.heartbeatIter st =
        (none, if st.ws = .connected then [GatewayEffect.closeWsWithCode 4000] else [])) ∧
    (st.lastHeartbeatAck = true → st.ws = .connected →
      Gateway.heartbeatIter st =
        (some { st with lastHeartbeatAck := false },
          [GatewayEffect.send (Gateway.heartbeatPayload { st with lastHeartbeatAck := false }),
           GatewayEffect.sleep st.heartbeatInterval])) ∧
    (∀ p : GatewayPayload, p.op = GatewayOpcode.HEARTBEAT →
      Gateway.handlePayload cfg st p =
        some (st, Gateway.sendEffects st (Gateway.heartbeatPayload st))) := by
  refine ⟨?_, ?_, ?_⟩
  · intro hack
    by_cases hws : st.ws = .connected <;> simp [Gateway.heartbeatIter, hws, hack]
  · intro hack hws
    simp [Gateway.heartbeatIter, hws, hack, Gateway.sendEffects]
  · intro p hop
    unfold Gateway.handlePayload
    rw [hop]
    norm_num [GatewayOpcode.HEARTBEAT, GatewayOpcode.HELLO, GatewayOpcode.HEARTBEAT_ACK]

/-- C4 witness: a loop iteration with the ack missing on a live connection
closes with code 4000 and stops, and one on a live acknowledged connection
sends a single heartbeat and sleeps the interval. -/
theorem C4_heartbeat_loop_witness :
    Gateway.heartbeatIter gwStNoAck =
      (none, if gwStNoAck.ws = .connected then [GatewayEffect.closeWsWithCode 4000] else []) ∧
    Gateway.heartbeatIter gwStSession =
      (some { gwStSession with lastHeartbeatAck := false },
        [GatewayEffect.send (Gateway.heartbeatPayload { gwStSession with lastHeartbeatAck := false }),
         GatewayEffect.sleep gwStSession.heartbeatInterval]) :=
  ⟨(C4_heartbeat_loop_discipline cfg0 gwStNoAck).1 rfl,
   (C4_heartbeat_loop_discipline cfg0 gwStSession).2.1 rfl rfl⟩

/-- C3 counterexample: handling a DISPATCH with s = 0 while the stored
sequence is 5 lowers the stored sequence to 0 — the code assigns
payload.s unconditionally, so non-decrease fails. -/
theorem C3_sequence_lowered_counterexample :
    gwSt5.sequence = some 5 ∧
    (Gateway.handlePayload cfg0 gwSt5 dispatchLow).map (fun r => r.1.sequence) =
      some (some 0) := by
  constructor
  · rfl
  · unfold Gateway.handlePayload
    norm_num [dispatchLow, GatewayOpcode.DISPATCH, GatewayOpcode.HELLO,
      GatewayOpcode.HEARTBEAT_ACK, GatewayOpcode.HEARTBEAT]
    simp [Gateway.handleDispatch]

/-- Dispatch handling never touches the stored sequence: READY changes
only the session id and resume URL. -/
lemma handleDispatch_sequence (st : GatewayState) (name : String) (data : Json)
    (st' : GatewayState) (effects : List GatewayEffect)
    (h : Gateway.handleDispatch st name data = some (st', effects)) :
    st'.sequence = st.sequence := by
  unfold Gateway.handleDispatch at h
  by_cases hn : name = "READY"
  · rw [if_pos hn] at h
    split at h
    · injection h with h1
      injection h1 with h2 h3
      subst h2
      rfl
    · exact absurd h (by simp)
  · rw [if_neg hn] at h
    injection h with h1
    injection h1 with h2 h3
    subst h2
    rfl

/-- C3 amended: handling a DISPATCH overwrites the stored sequence with
the payload's s field whenever s is present and leaves it unchanged when
s is None; consequently the stored sequence is non-decreasing provided
every arriving s is at least the currently stored value — the code does
not itself enforce non-decrease (see the counterexample). -/
theorem C3_sequence_assignment (cfg : GatewayConfig) (st : GatewayState)
    (p : GatewayPayload) (st' : GatewayState) (effects : List GatewayEffect)
    (hop : p.op = GatewayOpcode.DISPATCH)
    (h : Gateway.handlePayload cfg st p = some (st', effects)) :
    (st'.sequence = match p.s with
                    | some n => some n
                    | none => st.sequence) ∧
    ((∀ m n : ℤ, st.sequence = some m → p.s = some n → m ≤ n) →
      ∀ m n : ℤ, st.sequence = some m → st'.sequence = some n → m ≤ n) := by
  have hseq : st'.sequence = match p.s with
      | some n => some n
      | none => st.sequence := by
    unfold Gateway.handlePayload at h
    rw [hop] at h
    norm_num [GatewayOpcode.DISPATCH, GatewayOpcode.HELLO,
      GatewayOpcode.HEARTBEAT_ACK, GatewayOpcode.HEARTBEAT] at h
    cases hs : p.s with
    | none =>
      rw [hs] at h
      simpa using handleDispatch_sequence _ _ _ _ _ h
    | some n =>
      rw [hs] at h
      simpa using handleDispatch_sequence _ _ _ _ _ h
  refine ⟨hseq, ?_⟩
  intro hmono m n hm hn
  cases hs : p.s with
  | none =>
    rw [hs] at hseq
    rw [hseq, hm] at hn
    injection hn with hn
    omega
  | some k =>
    rw [hs] at hseq
    rw [hseq] at hn
    injection hn with hn
    exact hn ▸ hmono m k hm hs

/-- C3 witness: a DISPATCH with s = 7 on stored sequence 5 stores 7, and
the monotonicity consequence applies when the arriving s dominates. -/
theorem C3_sequence_witness :
    (({ gwSt5 with sequence := some 7 } : GatewayState).sequence =
      match dispatchHigh.s with
      | some n => some n
      | none => gwSt5.sequence) ∧
    ((∀ m n : ℤ, gwSt5.sequence = some m → dispatchHigh.s = some n → m ≤ n) →
      ∀ m n : ℤ, gwSt5.sequence = some m →
        ({ gwSt5 with sequence := some 7 } : GatewayState).sequence = some n → m ≤ n) :=
  C3_sequence_assignment cfg0 gwSt5 dispatchHigh
    { gwSt5 with sequence := some 7 } [GatewayEffect.dispatchEvent "X" Json.null]
    rfl rfl

/-- Looking up a key in an association list from which every entry with
that key has been filtered out yields nothing. -/
lemma lookup_filter_ne_self (l : List (String × ℚ)) (b : String) :
    ((l.filter fun kv => kv.1 != b).lookup b) = none := by
  induction l with
  | nil => rfl
  | cons kv t ih =>
    obtain ⟨k, v⟩ := kv
    by_cases h : k = b
    · simp [List.filter_cons, h, ih]
    · have hbk : (b == k) = false := beq_eq_false_iff_ne.mpr (Ne.symm h)
      simp [List.filter_cons, h, List.lookup, hbk, ih]

/-- C2: a transport-level failure during an attempt releases the bucket
with empty headers before sleeping and retrying (or re-raising on the
last attempt); RateLimiter.release frees the bucket lock unconditionally,
whatever the headers; and with empty headers it removes any stored reset
time for the bucket instead of recording one, so a later acquire is not
blocked by a stale lock or stale reset. -/
theorem C2_transport_failure_releases_bucket (bucket : String)
    (env : ℕ → AttemptOutcome) (fuel attempt : ℕ) :
    (env attempt = AttemptOutcome.transportError →
      HTTPClient.requestAux bucket env (fuel + 1) attempt =
        if attempt < 4 then
          ((HTTPClient.requestAux bucket env fuel (attempt + 1)).1,
            .acquire bucket :: .release bucket Headers.empty ::
              .sleep (1 + (attempt : ℚ)) ::
              (HTTPClient.requestAux bucket env fuel (attempt + 1)).2)
        else (RequestResult.transportError,
          [HttpEffect.acquire bucket, HttpEffect.release bucket Headers.empty])) ∧
    (∀ st : RateLimiterState, ∀ headers : Headers, ∀ now : ℚ,
      bucket ∉ (RateLimiter.release st bucket headers now).lockedBuckets) ∧
    (∀ st : RateLimiterState, ∀ now : ℚ,
      (RateLimiter.release st bucket Headers.empty now).resetTimeOf bucket = none) := by
  refine ⟨?_, ?_, ?_⟩
  · intro htr
    simp only [HTTPClient.requestAux]
    rw [htr]
  · intro st headers now
    simp [RateLimiter.release, List.mem_filter]
  · intro st now
    simp only [RateLimiter.release, Headers.empty, RateLimiterState.resetTimeOf]
    exact lookup_filter_ne_self st.resetTimes bucket

/-- C2 witness: with the transport down, the first attempt's trace
acquires, releases with empty headers and sleeps 1 second before
retrying; releasing the locked bucket "b" with empty headers frees the
lock and clears its stored reset time. -/
theorem C2_transport_failure_witness :
    (HTTPClient.requestAux "b" envDown (4 + 1) 0 =
      if 0 < 4 then
        ((HTTPClient.requestAux "b" envDown 4 (0 + 1)).1,
          .acquire "b" :: .release "b" Headers.empty ::
            .sleep (1 + ((0 : ℕ) : ℚ)) ::
            (HTTPClient.requestAux "b" envDown 4 (0 + 1)).2)
      else (RequestResult.transportError,
        [HttpEffect.acquire "b", HttpEffect.release "b" Headers.empty])) ∧
    "b" ∉ (RateLimiter.release rlSt0 "b" Headers.empty 0).lockedBuckets ∧
    (RateLimiter.release rlSt0 "b" Headers.empty 0).resetTimeOf "b" = none :=
  ⟨(C2_transport_failure_releases_bucket "b" envDown 4 0).1 rfl,
   (C2_transport_failure_releases_bucket "b" envDown 4 0).2.1 rlSt0 Headers.empty 0,
   (C2_transport_failure_releases_bucket "b" envDown 4 0).2.2 rlSt0 0⟩

/-- Each of the at most fuel remaining loop iterations acquires the bucket
at most once. -/
lemma requestAux_countAcquires_le (bucket : String) (env : ℕ → AttemptOutcome) :
    ∀ fuel attempt,
      countAcquires (HTTPClient.requestAux bucket env fuel attempt).2 ≤ fuel := by
  intro fuel
  induction fuel with
  | zero => intro attempt; simp [HTTPClient.requestAux, countAcquires]
  | succ n ih =>
    intro attempt
    cases henv : env attempt with
    | transportError =>
      by_cases h4 : attempt < 4
      · have hrec := ih (attempt + 1)
        simp only [HTTPClient.requestAux, henv]
        rw [if_pos h4]
        simp [countAcquires, List.countP_cons] at hrec ⊢
        omega
      · simp only [HTTPClient.requestAux, henv]
        rw [if_neg h4]
        simp [countAcquires, List.countP_cons]
    | response status headers body =>
      by_cases hA : 200 ≤ status ∧ status < 300
      · simp only [HTTPClient.requestAux, henv]
        rw [if_pos hA]
        simp [countAcquires, List.countP_cons]
      · by_cases hB : status = 429
        · have hrec := ih (attempt + 1)
          simp only [HTTPClient.requestAux, henv]
          rw [if_neg hA, if_pos hB]
          by_cases hg : json429Global body <;>
            simp [hg, countAcquires, List.countP_cons] at hrec ⊢ <;>
            omega
        · by_cases hC : 500 ≤ status
          · have hrec := ih (attempt + 1)
            simp only [HTTPClient.requestAux, henv]
            rw [if_neg hA, if_neg hB, if_pos hC]
            simp [countAcquires, List.countP_cons] at hrec ⊢
            omega
          · simp only [HTTPClient.requestAux, henv]
            rw [if_neg hA, if_neg hB, if_neg hC]
            simp [countAcquires, List.countP_cons]

/-- The typed-error result never carries status 429: the 429 branch is
classified before the client-error branch. -/
lemma requestAux_no_http429 (bucket : String) (env : ℕ → AttemptOutcome) :
    ∀ fuel attempt (s : ℕ) (c m e : Json),
      (HTTPClient.requestAux bucket env fuel attempt).1 =
        RequestResult.httpError s c m e → s ≠ 429 := by
  intro fuel
  induction fuel with
  | zero => intro attempt s c m e h; simp [HTTPClient.requestAux] at h
  | succ n ih =>
    intro attempt s c m e h
    cases henv : env attempt with
    | transportError =>
      simp only [HTTPClient.requestAux, henv] at h
      by_cases h4 : attempt < 4
      · rw [if_pos h4] at h
        exact ih (attempt + 1) s c m e h
      · rw [if_neg h4] at h
        simp at h
    | response status headers body =>
      simp only [HTTPClient.requestAux, henv] at h
      by_cases hA : 200 ≤ status ∧ status < 300
      · rw [if_pos hA] at h
        by_cases h204 : status = 204 <;> simp [h204] at h
      · by_cases hB : status = 429
        · rw [if_neg hA, if_pos hB] at h
          exact ih (attempt + 1) s c m e h
        · by_cases hC : 500 ≤ status
          · rw [if_neg hA, if_neg hB, if_pos hC] at h
            exact ih (attempt + 1) s c m e h
          · rw [if_neg hA, if_neg hB, if_neg hC] at h
            simp only [Prod.mk.injEq, RequestResult.httpError.injEq] at h
            obtain ⟨⟨hs, -, -, -⟩, -⟩ := h
            omega

/-- When every attempt within reach is answered 429 or 5xx, the loop runs
out of fuel with the exhausted result. -/
lemma requestAux_exhausts (bucket : String) (env : ℕ → AttemptOutcome) :
    ∀ fuel attempt,
      (∀ j, attempt ≤ j → j < attempt + fuel → (env j).retryableResponse = true) →
      (HTTPClient.requestAux bucket env fuel attempt).1 = RequestResult.exhausted := by
  intro fuel
  induction fuel with
  | zero => intro attempt _; simp [HTTPClient.requestAux]
  | succ n ih =>
    intro attempt hall
    have h0 := hall attempt le_rfl (by omega)
    cases henv : env attempt with
    | transportError =>
      rw [henv] at h0
      simp [AttemptOutcome.retryableResponse] at h0
    | response status headers body =>
      rw [henv] at h0
      simp only [AttemptOutcome.retryableResponse, Bool.or_eq_true, beq_iff_eq,
        decide_eq_true_eq] at h0
      simp only [HTTPClient.requestAux, henv]
      rcases h0 with h429 | h5
      · subst h429
        rw [if_neg (by omega), if_pos rfl]
        exact ih (attempt + 1) (fun j hj1 hj2 => hall j (by omega) (by omega))
      · rw [if_neg (by omega), if_neg (by omega), if_pos h5]
        exact ih (attempt + 1) (fun j hj1 hj2 => hall j (by omega) (by omega))

/-- C1: HTTPClient.request performs at most 5 attempts (at most 5 bucket
acquisitions per call); a 2xx attempt returns the parsed body, with 204
returning nothing, and stops; a 429 attempt is never turned into a typed
HTTP error — it trips the global throttle when the body's global flag is
truthy and otherwise sleeps retry_after, then retries within the same
cap; a 5xx attempt sleeps 1 + attemptIndex seconds and retries; any
other non-2xx attempt raises the typed HTTP error built from the body
immediately, with no retry; and when all 5 attempts are answered 429 or
5xx the call fails with the exhausted result, a kind distinct from the
typed HTTP errors. -/
theorem C1_request_retry_classification (bucket : String) (env : ℕ → AttemptOutcome) :
    countAcquires (HTTPClient.request bucket env).2 ≤ 5 ∧
    (∀ fuel attempt status headers body,
      env attempt = AttemptOutcome.response status headers body →
      200 ≤ status → status < 300 →
      HTTPClient.requestAux bucket env (fuel + 1) attempt =
        ((if status = 204 then RequestResult.success none
          else RequestResult.success (some body)),
         [HttpEffect.acquire bucket, HttpEffect.release bucket headers])) ∧
    (∀ fuel attempt headers body,
      env attempt = AttemptOutcome.response 429 headers body →
      HTTPClient.requestAux bucket env (fuel + 1) attempt =
        ((HTTPClient.requestAux bucket env fuel (attempt + 1)).1,
         HttpEffect.acquire bucket :: HttpEffect.release bucket headers ::
           (if json429Global body then HttpEffect.setGlobal (json429RetryAfter body)
            else HttpEffect.sleep (json429RetryAfter body)) ::
           (HTTPClient.requestAux bucket env fuel (attempt + 1)).2)) ∧
    (∀ (s : ℕ) (c m e : Json),
      (HTTPClient.request bucket env).1 = RequestResult.httpError s c m e → s ≠ 429) ∧
    (∀ fuel attempt status headers body,
      env attempt = AttemptOutcome.response status headers body →
      500 ≤ status →
      HTTPClient.requestAux bucket env (fuel + 1) attempt =
        ((HTTPClient.requestAux bucket env fuel (attempt + 1)).1,
         HttpEffect.acquire bucket :: HttpEffect.release bucket headers ::
           HttpEffect.sleep (1 + (attempt : ℚ)) ::
           (HTTPClient.requestAux bucket env fuel (attempt + 1)).2)) ∧
    (∀ fuel attempt status headers body,
      env attempt = AttemptOutcome.response status headers body →
      ¬(200 ≤ status ∧ status < 300) → status ≠ 429 → status < 500 →
      HTTPClient.requestAux bucket env (fuel + 1) attempt =
        (RequestResult.httpError status ((body.getKey "code").getD (Json.str "UNKNOWN"))
          ((body.getKey "message").getD (Json.str "Unknown error"))
          ((body.getKey "errors").getD Json.null),
         [HttpEffect.acquire bucket, HttpEffect.release bucket headers])) ∧
    ((∀ j, j < 5 → (env j).retryableResponse = true) →
      (HTTPClient.request bucket env).1 = RequestResult.exhausted ∧
      ∀ (s : ℕ) (c m e : Json),
        RequestResult.exhausted ≠ RequestResult.httpError s c m e) := by
  refine ⟨requestAux_countAcquires_le bucket env 5 0, ?_, ?_, ?_, ?_, ?_, ?_⟩
  · intro fuel attempt status headers body henv h1 h2
    simp only [HTTPClient.requestAux, henv]
    rw [if_pos (⟨h1, h2⟩ : 200 ≤ status ∧ status < 300)]
  · intro fuel attempt headers body henv
    simp only [HTTPClient.requestAux, henv]
    rw [if_neg (by omega : ¬((200 : ℕ) ≤ 429 ∧ (429 : ℕ) < 300)), if_pos trivial]
  · intro s c m e h
    exact requestAux_no_http429 bucket env 5 0 s c m e h
  · intro fuel attempt status headers body henv h5
    simp only [HTTPClient.requestAux, henv]
    rw [if_neg (by omega : ¬(200 ≤ status ∧ status < 300)),
      if_neg (by omega : ¬(status = 429)), if_pos h5]
  · intro fuel attempt status headers body henv hA hB hC
    simp only [HTTPClient.requestAux, henv]
    rw [if_neg hA, if_neg hB, if_neg (by omega : ¬(500 ≤ status))]
  · intro hall
    refine ⟨requestAux_exhausts bucket env 5 0 (fun j _ hj2 => hall j (by omega)), ?_⟩
    intro s c m e
    simp

/-- C1 witness: a first-attempt 200 returns the parsed body with a single
acquisition; five straight 429 answers exhaust the call with the
non-HTTP-error result. -/
theorem C1_request_witness :
    countAcquires (HTTPClient.request "b" envOk).2 ≤ 5 ∧
    HTTPClient.requestAux "b" envOk (4 + 1) 0 =
      ((if (200 : ℕ) = 204 then RequestResult.success none
        else RequestResult.success (some (Json.str "ok"))),
       [HttpEffect.acquire "b", HttpEffect.release "b" Headers.empty]) ∧
    (HTTPClient.request "b" envAll429).1 = RequestResult.exhausted :=
  ⟨(C1_request_retry_classification "b" envOk).1,
   (C1_request_retry_classification "b" envOk).2.1 4 0 200 Headers.empty
     (Json.str "ok") rfl (by norm_num) (by norm_num),
   ((C1_request_retry_classification "b" envAll429).2.2.2.2.2.2
     (fun j _ => rfl)).1⟩

/-- Lock-ownership invariant: in any reachable bucket system, a request
that has passed acquire and not yet released holds the bucket lock. -/
lemma bucketReachable_inFlight_owner {s : BucketSys} (hr : BucketReachable s) :
    ∀ t : ℕ, s.phase t = ReqPhase.inFlight → s.lockOwner = some t := by
  induction hr with
  | init =>
    intro t h
    simp [BucketSys.init] at h
  | step hr hstep ih =>
    cases hstep with
    | callAcquire t ht =>
      intro u hu
      simp only [BucketSys.updPhase] at hu
      by_cases he : u = t
      · rw [if_pos he] at hu
        exact absurd hu (by simp)
      · rw [if_neg he] at hu
        exact ih u hu
    | lockAcquired t ht hfree =>
      intro u hu
      simp only [BucketSys.updPhase] at hu
      by_cases he : u = t
      · subst he
        rfl
      · rw [if_neg he] at hu
        rw [ih u hu] at hfree
        exact absurd hfree (by simp)
    | release t ht =>
      intro u hu
      simp only [BucketSys.updPhase] at hu
      by_cases he : u = t
      · rw [if_pos he] at hu
        exact absurd hu (by simp)
      · rw [if_neg he] at hu
        have h1 := ih u hu
        have h2 := ih t ht
        rw [h1] at h2
        injection h2 with h2
        exact absurd h2 he

/-- C9: in every reachable interleaving of requests sharing a bucket, at
most one request is in flight on that bucket at a time — between one
request's acquire returning and its release, no other request passes
acquire, because the bucket's lock is exclusively owned. -/
theorem C9_bucket_mutual_exclusion {s : BucketSys} (hr : BucketReachable s)
    {t1 t2 : ℕ} (h1 : s.phase t1 = ReqPhase.inFlight)
    (h2 : s.phase t2 = ReqPhase.inFlight) : t1 = t2 := by
  have o1 := bucketReachable_inFlight_owner hr t1 h1
  have o2 := bucketReachable_inFlight_owner hr t2 h2
  rw [o1] at o2
  injection o2

/-- C9 witness: the state in which task 0 has called acquire and obtained
the bucket lock is reachable, and the exclusivity theorem applies to it. -/
theorem C9_bucket_mutual_exclusion_witness :
    BucketReachable bucketSys1 ∧ (0 : ℕ) = 0 :=
  have hr : BucketReachable bucketSys1 :=
    BucketReachable.step
      (BucketReachable.step BucketReachable.init
        (BucketStep.callAcquire BucketSys.init 0 rfl))
      (BucketStep.lockAcquired _ 0 rfl rfl)
  ⟨hr, C9_bucket_mutual_exclusion hr rfl rfl⟩
